import Mathlib

/-!
Shallow embedding of `src/ioFabricClient.js` from the ioFog node.js container
SDK: the binary WebSocket framing layer (frame codec, opcode dispatch,
acknowledgement and keepalive handling) together with the module-level state
(`ELEMENT_ID`, `SSL`, `host`, `port`, `wsMessage`, `wsControl`) and the
operations exported by the module.

Byte buffers (Node `Buffer`) are modelled as `List Nat`; the side effects of
each inbound-frame handler are modelled as the list of events it produces
(application callbacks invoked and frames written to a socket), in the order
the source performs them.  The external collaborators `ioMessageUtil.ioMsgBuffer`
and `ioMessageUtil.ioMessageFromBuffer` (entity encode/decode) are opaque: the
handlers below carry the raw entity bytes that the source passes to them.
-/

namespace IoFabric

/-- Wire opcodes, `src/ioFabricClient.js` lines 9-14. -/
def OPCODE_PING : Nat := 0x9

def OPCODE_PONG : Nat := 0xA

def OPCODE_ACK : Nat := 0xB

def OPCODE_CONTROL_SIGNAL : Nat := 0xC

def OPCODE_MSG : Nat := 0xD

def OPCODE_RECEIPT : Nat := 0xE

/-- A byte buffer: Node `Buffer` as a list of byte values. -/
abbrev Bytes := List Nat

/-- `data[i]` on a Node `Buffer` (`0` out of range; all uses here are in range). -/
def byteAt (data : Bytes) (i : Nat) : Nat := data.getD i 0

/-- Node `Buffer.readUIntBE(pos, len)`: the big-endian unsigned integer made of
the `len` bytes starting at offset `pos`. -/
def readUIntBE (data : Bytes) (pos len : Nat) : Nat :=
  ((data.drop pos).take len).foldl (fun acc b => acc * 256 + b) 0

/-- Node `Buffer.slice(start, stop)`: the bytes in `[start, stop)`, clamped to
the buffer length. -/
def bufSlice (data : Bytes) (start stop : Nat) : Bytes :=
  (data.drop start).take (stop - start)

/-- A WebSocket handle from the `ws` library; only `readyState` matters to the
source (`wsSendMessage`, line 224). -/
structure WSocket where
  readyState : Nat
deriving Repr, DecidableEq

/-- `WebSocket.OPEN` of the `ws` library. -/
def WS_OPEN : Nat := 1

/-- The condition `!wsMessage || wsMessage.readyState != WebSocket.OPEN` of
`wsSendMessage` (line 224): the socket variable is undefined, or the socket is
not in the Open state. -/
def wsNotConnected : Option WSocket → Bool
  | none => true
  | some w => w.readyState != WS_OPEN

/-- `sendAck(ws)`, lines 235-239: builds the one-byte buffer `[OPCODE_ACK]` and,
only if `ws` is truthy (defined), writes it to the socket.  The result is the
list of frames actually written. -/
def sendAck : Option WSocket → List Bytes
  | some _ => [[OPCODE_ACK]]
  | none => []

/-- Modelled from the spec: `byteUtils.intToBytes` lives in
`src/lib/byteUtils.js`, which is not part of the source snapshot.  Per the
spec, `encodeMessageFrame` emits a 4-byte big-endian length field, so
`intToBytes` is modelled as the 4-byte big-endian encoding of its argument. -/
def intToBytes (n : Nat) : Bytes :=
  [n / 16777216 % 256, n / 65536 % 256, n / 256 % 256, n % 256]

/-- The outbound MESSAGE frame built by `wsSendMessage` (lines 226-228):
`Buffer.concat([opCodeBuffer, lengthBuffer, msgBuffer])` with
`opCodeBuffer = [OPCODE_MSG]` and `lengthBuffer = intToBytes(msgBuffer.length)`. -/
def messageFrame (msgBuffer : Bytes) : Bytes :=
  [OPCODE_MSG] ++ intToBytes msgBuffer.length ++ msgBuffer

/-- `wsSendMessage(ioMsg)`, lines 223-230, as a function of the module-level
`wsMessage` variable and of the entity bytes `msgBuffer` produced by the opaque
collaborator `ioMessageUtil.ioMsgBuffer(ioMsg)`.  A JS `throw` is modelled as
`Except.error` carrying the error message; nothing is written to any socket and
nothing is queued in that case.  When the socket is open the frame written to
the socket is returned. -/
def wsSendMessage (wsMessage : Option WSocket) (msgBuffer : Bytes) :
    Except String Bytes :=
  if wsNotConnected wsMessage then Except.error "WS is not connected"
  else Except.ok (messageFrame msgBuffer)

/-- Events produced by the control-channel data handler. -/
inductive CtrlEvent where
  | onNewConfigSignal
  | sent (frame : Bytes)
deriving Repr, DecidableEq

/-- Events produced by the message-channel data handler.  `onMessages` carries
the list of entity-byte payloads handed to `cb.onMessages` (the source always
passes a single-element array); `onMessageReceipt` carries the decoded id bytes
and timestamp. -/
inductive MsgEvent where
  | onMessages (payloads : List Bytes)
  | onMessageReceipt (id : Bytes) (timestamp : Nat)
  | sent (frame : Bytes)
deriving Repr, DecidableEq

/-- `wsHandleControlData(data, flags)`, lines 163-171, as a function of the
module-level `wsControl` variable:  on a binary nonempty payload whose first
byte is `OPCODE_CONTROL_SIGNAL`, invoke `cb.onNewConfigSignal()` and then
`sendAck(wsControl)`; otherwise do nothing. -/
def wsHandleControlData (wsControl : Option WSocket) (data : Bytes)
    (binary : Bool) : List CtrlEvent :=
  if binary = true ∧ 0 < data.length then
    if byteAt data 0 = OPCODE_CONTROL_SIGNAL then
      CtrlEvent.onNewConfigSignal :: (sendAck wsControl).map CtrlEvent.sent
    else []
  else []

/-- The `messageId` decoded by the RECEIPT branch (lines 197-203):
`data[1]` id bytes sliced from offset 3 when `data[1] > 0`, the empty string
(no bytes) otherwise.  The id is a UTF-8 string in the source; it is carried
here as its byte sequence. -/
def receiptId (data : Bytes) : Bytes :=
  if 0 < byteAt data 1 then bufSlice data 3 (3 + byteAt data 1) else []

/-- The offset `pos` after the id slice of the RECEIPT branch (lines 198-203):
3 when `data[1] = 0`, otherwise `3 + data[1]`. -/
def receiptPos (data : Bytes) : Nat :=
  if 0 < byteAt data 1 then 3 + byteAt data 1 else 3

/-- The `timestamp` decoded by the RECEIPT branch (lines 204-208): a `data[2]`
byte big-endian unsigned integer read at `receiptPos` when `data[2] > 0`,
zero otherwise. -/
def receiptTimestamp (data : Bytes) : Nat :=
  if 0 < byteAt data 2 then readUIntBE data (receiptPos data) (byteAt data 2)
  else 0

/-- `wsHandleMessageData(data, flags)`, lines 184-213, as a function of the
module-level `wsMessage` variable.  On a binary nonempty payload:
opcode `OPCODE_MSG` reads a 4-byte big-endian length at offset 1, slices that
many bytes from offset 5, hands them (via the opaque entity decoder) to
`cb.onMessages([msg])`, and calls `sendAck()` WITH NO ARGUMENT (line 195);
opcode `OPCODE_RECEIPT` decodes id and timestamp, calls
`cb.onMessageReceipt(messageId, timestamp)`, then `sendAck(wsMessage)`;
any other opcode does nothing. -/
def wsHandleMessageData (wsMessage : Option WSocket) (data : Bytes)
    (binary : Bool) : List MsgEvent :=
  if binary = true ∧ 0 < data.length then
    if byteAt data 0 = OPCODE_MSG then
      MsgEvent.onMessages [bufSlice data 5 (readUIntBE data 1 4 + 5)] ::
        (sendAck none).map MsgEvent.sent
    else if byteAt data 0 = OPCODE_RECEIPT then
      MsgEvent.onMessageReceipt (receiptId data) (receiptTimestamp data) ::
        (sendAck wsMessage).map MsgEvent.sent
    else []
  else []

/-- The `'ping'` handler `wsPing(data, flags)` registered by `makeWSRequest`
(lines 323-329): only when the ping is binary with exactly a 1-byte payload, a
pong is sent whose payload is the one-byte buffer `[OPCODE_PONG]` (the ping
payload is NOT echoed).  The result is the list of pong payloads written. -/
def wsPing (data : Bytes) (binary : Bool) : List Bytes :=
  if binary = true ∧ data.length = 1 then [[OPCODE_PONG]] else []

/-- The module-level mutable state of `src/ioFabricClient.js`, lines 22-28. -/
structure ClientState where
  ELEMENT_ID : String
  SSL : Bool
  host : String
  port : Nat
  wsMessage : Option WSocket
  wsControl : Option WSocket
deriving Repr, DecidableEq

/-- The state at module load (lines 22-28): `ELEMENT_ID = "NOT_DEFINED"`,
`SSL = false`, `host = "iofabric"`, `port = 54321`, and `wsMessage`,
`wsControl` both undefined. -/
def initialState : ClientState :=
  { ELEMENT_ID := "NOT_DEFINED", SSL := false, host := "iofabric",
    port := 54321, wsMessage := none, wsControl := none }

/-- JS truthiness of an optional string: defined and nonempty. -/
def truthyOpt : Option String → Bool
  | some s => s != ""
  | none => false

/-- JS `String.prototype.trim` (used on lines 47 and 49): strip leading and
trailing whitespace.  Executable model over the character list. -/
def trimStr (s : String) : String :=
  String.mk
    (((s.data.dropWhile Char.isWhitespace).reverse.dropWhile
        Char.isWhitespace).reverse)

/-- The non-blank test `!(!x || !x.trim())` used by `init` for `shost` and
`containerId` (lines 47, 49): defined, nonempty, and nonempty after trim. -/
def nonBlank : Option String → Bool
  | some s => s != "" && trimStr s != ""
  | none => false

/-- The `ELEMENT_ID` resolution performed by `init`, in source order:
line 41 `if(options['--id']){ ELEMENT_ID = options['--id']; }`,
line 43 `if(process.env.SELFNAME){ ELEMENT_ID = process.env.SELFNAME; }`,
line 49 `if(!(!containerId || !containerId.trim())) { ELEMENT_ID = containerId; }`.
Note the `containerId` assignment comes LAST. -/
def resolveElementId (argvId selfname containerId : Option String)
    (cur : String) : String :=
  let e1 := match argvId with
    | some s => if s != "" then s else cur
    | none => cur
  let e2 := match selfname with
    | some s => if s != "" then s else e1
    | none => e1
  match containerId with
  | some s => if s != "" && trimStr s != "" then s else e2
  | none => e2

/-- The inputs of one `init` call: the `--id` command-line option, the
`SELFNAME` and `SSL` environment variables, the `shost`, `sport` and
`containerId` arguments, and whether the `ping` probe of the host succeeds
(lines 51-55: on failure `host` becomes `'127.0.0.1'`). -/
structure InitArgs where
  argvId : Option String
  selfname : Option String
  sslEnv : Option String
  shost : Option String
  sport : Option Int
  containerId : Option String
  hostReachable : Bool
deriving Repr, DecidableEq

/-- The state transformation of `exports.init` (lines 38-58).  It touches
`ELEMENT_ID`, `SSL`, `host` and `port` only; `wsMessage` and `wsControl` are
not assigned anywhere in the module. -/
def applyInit (s : ClientState) (a : InitArgs) : ClientState :=
  let elementId := resolveElementId a.argvId a.selfname a.containerId s.ELEMENT_ID
  let ssl := s.SSL || truthyOpt a.sslEnv
  let h0 := if nonBlank a.shost then a.shost.getD s.host else s.host
  let p0 := match a.sport with
    | some p => if 0 < p then p.toNat else s.port
    | none => s.port
  let h1 := if a.hostReachable then h0 else "127.0.0.1"
  { s with ELEMENT_ID := elementId, SSL := ssl, host := h1, port := p0 }

/-- The exported operations that can run against the module state.
`wsControlConnection` and `wsMessageConnection` call `makeWSRequest(ws, ...)`
(lines 312-331), which assigns `new WebSocket(url)` only to its LOCAL
parameter `ws`; the module-level variables are never written, so these
operations leave the state unchanged.  `wsSendMessage` either throws or writes
to the socket; it assigns nothing. -/
inductive Op where
  | opInit (a : InitArgs)
  | opWsControlConnection
  | opWsMessageConnection
  | opWsSendMessage (msgBuffer : Bytes)
deriving Repr, DecidableEq

/-- One step of module state under an exported operation. -/
def applyOp (s : ClientState) : Op → ClientState
  | Op.opInit a => applyInit s a
  | Op.opWsControlConnection => s
  | Op.opWsMessageConnection => s
  | Op.opWsSendMessage _ => s

/-- The module state after a sequence of exported operations, starting from the
module-load state. -/
def runOps (ops : List Op) : ClientState := ops.foldl applyOp initialState

/-- `getEndpointURL(protocol, url)`, lines 272-274:
`protocol + "://" + host + ":" + port + url`. -/
def getEndpointURL (protocol hostStr : String) (portNum : Nat)
    (url : String) : String :=
  protocol ++ "://" ++ hostStr ++ ":" ++ toString portNum ++ url

/-- `getWSURL(url)`, lines 259-263: protocol `"wss"` when `SSL` is set,
`"ws"` otherwise. -/
def getWSURL (ssl : Bool) (hostStr : String) (portNum : Nat)
    (url : String) : String :=
  getEndpointURL (if ssl then "wss" else "ws") hostStr portNum url

/-- The URL opened by `makeWSRequest` (line 313): `getWSURL(url + ELEMENT_ID)`. -/
def makeWSUrl (s : ClientState) (relUrl : String) : String :=
  getWSURL s.SSL s.host s.port (relUrl ++ s.ELEMENT_ID)

/-- The URL of the control channel (`wsControlConnection`, line 162). -/
def controlWSUrl (s : ClientState) : String :=
  makeWSUrl s "/v2/control/socket/id/"

/-- The URL of the message channel (`wsMessageConnection`, line 183). -/
def messageWSUrl (s : ClientState) : String :=
  makeWSUrl s "/v2/message/socket/id/"

/-- A JS value as far as `getMessagesByQuery` inspects it: either an array of
publisher id strings, or some non-array value. -/
inductive JsVal where
  | array (elems : List String)
  | nonArray
deriving Repr, DecidableEq

/-- `Array.isArray(publishers)` (line 126). -/
def isArray : JsVal → Bool
  | JsVal.array _ => true
  | JsVal.nonArray => false

/-- The JSON body posted by `getMessagesByQuery` (lines 128-133). -/
structure QueryRequest where
  id : String
  timeframestart : Int
  timeframeend : Int
  publishers : List String
deriving Repr, DecidableEq

/-- An HTTP POST issued through `makeHttpRequest`: the relative endpoint path
and the JSON body. -/
structure HttpCall where
  relativeUrl : String
  body : QueryRequest
deriving Repr, DecidableEq

/-- `exports.getMessagesByQuery(startdate, enddate, publishers, cb)`,
lines 125-141: when `Array.isArray(publishers)` it issues one HTTP POST to
`"/v2/messages/query"` with the shown JSON body; otherwise it throws
`Error('Publishers input is not array!')` synchronously, before any request is
made and before any callback can be invoked (the `Except.error` carries no
`HttpCall`). -/
def getMessagesByQuery (elementId : String) (startdate enddate : Int)
    (publishers : JsVal) : Except String HttpCall :=
  match publishers with
  | JsVal.array pubs =>
      Except.ok
        { relativeUrl := "/v2/messages/query",
          body := { id := elementId, timeframestart := startdate,
                    timeframeend := enddate, publishers := pubs } }
  | JsVal.nonArray => Except.error "Publishers input is not array!"

/-! ### Helper lemmas -/

/-- No exported operation writes the module-level socket variables. -/
theorem applyOp_preserves_ws (s : ClientState) (op : Op) :
    (applyOp s op).wsControl = s.wsControl ∧
    (applyOp s op).wsMessage = s.wsMessage := by
  cases op <;> simp [applyOp, applyInit]

/-- Folding any operation sequence preserves the socket variables. -/
theorem foldl_applyOp_ws (ops : List Op) (s : ClientState) :
    (ops.foldl applyOp s).wsControl = s.wsControl ∧
    (ops.foldl applyOp s).wsMessage = s.wsMessage := by
  induction ops generalizing s with
  | nil => exact ⟨rfl, rfl⟩
  | cons op rest ih =>
      have h := applyOp_preserves_ws s op
      have h2 := ih (applyOp s op)
      simp only [List.foldl_cons]
      exact ⟨h2.1.trans h.1, h2.2.trans h.2⟩


/-- The 4-byte big-endian length field written by `messageFrame` reads back as
the payload length, for payloads shorter than `2^32`. -/
theorem readUIntBE_messageFrame (b rest : Bytes) (h : b.length < 4294967296) :
    readUIntBE (OPCODE_MSG :: (intToBytes b.length ++ rest)) 1 4 = b.length := by
  simp [readUIntBE, intToBytes, List.take, List.foldl]
  omega

/-- Slicing `b.length` bytes from offset 5 of a MESSAGE frame recovers the
payload, whatever trails it. -/
theorem bufSlice_messageFrame (b rest : Bytes) :
    bufSlice (OPCODE_MSG :: (intToBytes b.length ++ (b ++ rest))) 5
      (b.length + 5) = b := by
  simp [bufSlice, intToBytes, List.take_left]

/-! ### Claim theorems -/

/-- C4: for any byte sequence `b` of length < 2^32, the MESSAGE-branch decoder
applied to the frame produced by the MESSAGE-frame encoder (with any trailing
bytes appended) recovers exactly `b` as the entity payload: the handler emits
exactly one `onMessages` event carrying `b`, reading the 4-byte big-endian
length at offset 1 and slicing that many bytes from offset 5, ignoring
everything beyond offset `5 + length`. -/
theorem message_frame_roundtrip (b extra : Bytes) (ws : Option WSocket)
    (h : b.length < 4294967296) :
    wsHandleMessageData ws (messageFrame b ++ extra) true
      = [MsgEvent.onMessages [b]] := by
  have hA : messageFrame b ++ extra
      = OPCODE_MSG :: (intToBytes b.length ++ (b ++ extra)) := by
    simp [messageFrame]
  have h1 := readUIntBE_messageFrame b (b ++ extra) h
  have h2 := bufSlice_messageFrame b extra
  rw [hA]
  simp [wsHandleMessageData, byteAt, sendAck, h1, h2]

/-- C4 witness: the roundtrip at the concrete payload `[1, 2, 3]` with a
trailing byte that must be ignored. -/
theorem message_frame_roundtrip_witness :
    wsHandleMessageData none (messageFrame [1, 2, 3] ++ [9]) true
      = [MsgEvent.onMessages [[1, 2, 3]]] :=
  message_frame_roundtrip [1, 2, 3] [9] none (by decide)

/-- C3: after every sequence of exported operations, the module-level socket
variables `wsControl` and `wsMessage` are still undefined (`makeWSRequest`
assigns the new WebSocket only to its local parameter); consequently
`wsSendMessage` throws `'WS is not connected'` on every call, and `sendAck`
invoked with `wsControl`, with `wsMessage`, or with no argument writes
nothing. -/
theorem ws_vars_never_assigned (ops : List Op) (msgBuffer : Bytes) :
    (runOps ops).wsControl = none ∧ (runOps ops).wsMessage = none ∧
    wsSendMessage (runOps ops).wsMessage msgBuffer
      = Except.error "WS is not connected" ∧
    sendAck (runOps ops).wsControl = [] ∧
    sendAck (runOps ops).wsMessage = [] ∧
    sendAck none = [] := by
  have h := foldl_applyOp_ws ops initialState
  have hc : (runOps ops).wsControl = none := h.1
  have hm : (runOps ops).wsMessage = none := h.2
  refine ⟨hc, hm, ?_, ?_, ?_, rfl⟩
  · rw [runOps] at hm ⊢; rw [hm]; rfl
  · rw [runOps] at hc ⊢; rw [hc]; rfl
  · rw [runOps] at hm ⊢; rw [hm]; rfl

/-- C1: the code at the claim's scenario.  After opening the channels (which
leaves the module-level socket variables undefined), a successfully dispatched
CONTROL_SIGNAL, MESSAGE or RECEIPT frame produces its application callback but
writes NO ACK frame at all — `sendAck(wsControl)` and `sendAck(wsMessage)` see
an undefined socket and the MESSAGE branch even calls `sendAck()` with no
argument — whereas the claim requires exactly one ACK byte `0x0B` per
dispatch. -/
theorem dispatched_frames_send_no_ack :
    wsHandleControlData (runOps [Op.opWsControlConnection]).wsControl
        [0xC] true = [CtrlEvent.onNewConfigSignal] ∧
    wsHandleMessageData (runOps [Op.opWsMessageConnection]).wsMessage
        [0xD, 0, 0, 0, 1, 97] true = [MsgEvent.onMessages [[97]]] ∧
    wsHandleMessageData (runOps [Op.opWsMessageConnection]).wsMessage
        [0xE, 1, 1, 97, 7] true = [MsgEvent.onMessageReceipt [97] 7] := by
  refine ⟨rfl, rfl, rfl⟩

/-- C2: `wsSendMessage` fails with `Error('WS is not connected')`, throwing
synchronously and sending nothing, exactly when the module-level `wsMessage`
socket is undefined or not in the Open state; when the socket is Open it
returns the frame written to the socket, which is the entity bytes wrapped as
`[OPCODE_MSG][4-byte BE length][entityBytes]`. -/
theorem wsSendMessage_error_iff (ws : Option WSocket) (entityBytes : Bytes) :
    (wsSendMessage ws entityBytes = Except.error "WS is not connected" ↔
      wsNotConnected ws = true) ∧
    (wsNotConnected ws = false →
      wsSendMessage ws entityBytes = Except.ok (messageFrame entityBytes)) ∧
    messageFrame entityBytes
      = OPCODE_MSG :: (intToBytes entityBytes.length ++ entityBytes) := by
  cases hws : wsNotConnected ws <;>
    simp [wsSendMessage, hws, messageFrame]

/-- C2 witness: an Open socket sends the wrapped frame; an undefined socket
variable makes the call throw. -/
theorem wsSendMessage_error_iff_witness :
    wsSendMessage (some { readyState := 1 }) [5]
      = Except.ok [13, 0, 0, 0, 1, 5] ∧
    wsSendMessage none [5] = Except.error "WS is not connected" := by
  constructor
  · have h := (wsSendMessage_error_iff (some { readyState := 1 }) [5]).2.1
      (by decide)
    rw [h]; rfl
  · exact (wsSendMessage_error_iff none [5]).1.mpr (by decide)

/-- C5: the RECEIPT decoder yields the empty id when `idLength = data[1]` is 0
and timestamp 0 when `timestampLength = data[2]` is 0, and on the concrete
frame `[0xE, 3, 4, 0x61, 0x62, 0x63, 0x00, 0x00, 0x00, 0x01]` it decodes id
bytes `"abc"` (= `[0x61, 0x62, 0x63]`) and timestamp 1, handing the pair to
the message-acknowledged callback `onMessageReceipt`. -/
theorem receipt_decode_boundaries (data : Bytes) (ws : Option WSocket) :
    (byteAt data 1 = 0 → receiptId data = []) ∧
    (byteAt data 2 = 0 → receiptTimestamp data = 0) ∧
    wsHandleMessageData ws [0xE, 3, 4, 0x61, 0x62, 0x63, 0, 0, 0, 1] true
      = MsgEvent.onMessageReceipt [0x61, 0x62, 0x63] 1 ::
          (sendAck ws).map MsgEvent.sent := by
  refine ⟨?_, ?_, ?_⟩
  · intro h; simp [receiptId, h]
  · intro h; simp [receiptTimestamp, h]
  · cases ws <;> rfl

/-- C5 witness: the boundary cases at the frame `[0xE, 0, 0]` and the concrete
id/timestamp frame dispatched with the (actual) undefined socket variable. -/
theorem receipt_decode_boundaries_witness :
    receiptId [0xE, 0, 0] = [] ∧ receiptTimestamp [0xE, 0, 0] = 0 ∧
    wsHandleMessageData none [0xE, 3, 4, 0x61, 0x62, 0x63, 0, 0, 0, 1] true
      = [MsgEvent.onMessageReceipt [97, 98, 99] 1] := by
  have h := receipt_decode_boundaries [0xE, 0, 0] none
  have h2 := (receipt_decode_boundaries [0xE, 0, 0] none).2.2
  exact ⟨h.1 (by decide), h.2.1 (by decide), by simpa [sendAck] using h2⟩

/-- C6 counterexample: with `SELFNAME = "env-name"` in the environment and the
non-blank explicit argument `containerId = "arg-name"`, `init` resolves the
final identity to `"arg-name"` (the `containerId` assignment on line 49 runs
after the `SELFNAME` assignment on line 43), not to the environment value as
the claim requires. -/
theorem selfname_overridden_by_containerId :
    (applyInit initialState
        { argvId := none, selfname := some "env-name", sslEnv := none,
          shost := none, sport := none, containerId := some "arg-name",
          hostReachable := true }).ELEMENT_ID = "arg-name" ∧
    ("arg-name" : String) ≠ "env-name" := by
  constructor
  · decide
  · decide

/-- C6 amended: `init` resolves the identity with precedence
explicit non-blank `containerId` argument > `SELFNAME` environment variable >
`--id` command-line option > the current (default) placeholder. -/
theorem element_id_precedence (argvId selfname containerId : Option String)
    (cur : String) :
    resolveElementId argvId selfname containerId cur =
      if nonBlank containerId then containerId.getD cur
      else if truthyOpt selfname then selfname.getD cur
      else if truthyOpt argvId then argvId.getD cur
      else cur := by
  rcases containerId with _ | c <;> rcases selfname with _ | t <;>
    rcases argvId with _ | a <;>
    simp [resolveElementId, nonBlank, truthyOpt]

/-- C7 counterexample: a binary transport-level PING with a 2-byte payload is
answered with no PONG at all, and the PONG sent for a binary 1-byte PING
carries the fixed single byte 0x0A (the PONG opcode), not the echoed PING
payload. -/
theorem ping_not_echoed :
    wsPing [1, 2] true = [] ∧
    wsPing [5] true = [[OPCODE_PONG]] ∧
    ([OPCODE_PONG] : Bytes) ≠ [OPCODE_PONG, 5] := by
  refine ⟨rfl, rfl, by decide⟩

/-- C7 amended: a PONG reply is sent if and only if the inbound transport-level
PING is binary with exactly a one-byte payload; at most one PONG is sent per
PING, and every PONG sent carries the fixed single-byte payload 0x0A (the PONG
opcode), never an echo of the PING payload. -/
theorem pong_fixed_payload (data : Bytes) (binary : Bool) :
    (∀ p, p ∈ wsPing data binary → p = [OPCODE_PONG]) ∧
    (wsPing data binary ≠ [] ↔ (binary = true ∧ data.length = 1)) ∧
    (wsPing data binary).length ≤ 1 := by
  by_cases h : binary = true ∧ data.length = 1 <;> simp [wsPing, h]

/-- C7 amended witness: the binary one-byte PING `[7]` triggers exactly one
PONG. -/
theorem pong_fixed_payload_witness :
    wsPing [7] true ≠ [] ∧ (wsPing [7] true).length ≤ 1 := by
  have h := pong_fixed_payload [7] true
  exact ⟨h.2.1.mpr (by decide), h.2.2⟩

/-- C8: an inbound payload whose first byte is not a recognized opcode for its
channel, and every zero-length payload, is silently dropped by the handlers:
no callback event, no ACK written, and (the handlers being total functions)
nothing thrown. -/
theorem unknown_frames_silently_dropped (wsc wsm : Option WSocket)
    (data : Bytes) (binary : Bool) :
    (byteAt data 0 ≠ OPCODE_CONTROL_SIGNAL →
      wsHandleControlData wsc data binary = []) ∧
    (byteAt data 0 ≠ OPCODE_MSG → byteAt data 0 ≠ OPCODE_RECEIPT →
      wsHandleMessageData wsm data binary = []) ∧
    (data = [] → wsHandleControlData wsc data binary = [] ∧
      wsHandleMessageData wsm data binary = []) := by
  refine ⟨?_, ?_, ?_⟩
  · intro h; simp [wsHandleControlData, h]
  · intro h1 h2; simp [wsHandleMessageData, h1, h2]
  · intro h; subst h; simp [wsHandleControlData, wsHandleMessageData]

/-- C8 witness: the unknown opcode 0xFF with a nonempty payload and the empty
payload are both dropped on both channels. -/
theorem unknown_frames_silently_dropped_witness :
    wsHandleControlData none [0xFF, 1] true = [] ∧
    wsHandleMessageData none [0xFF, 1] true = [] ∧
    wsHandleControlData none [] true = [] ∧
    wsHandleMessageData none [] true = [] := by
  have h := unknown_frames_silently_dropped none none [0xFF, 1] true
  have h0 := unknown_frames_silently_dropped none none [] true
  exact ⟨h.1 (by decide), h.2.1 (by decide) (by decide),
    (h0.2.2 rfl).1, (h0.2.2 rfl).2⟩

/-- String append is associative (helper for the URL theorems). -/
theorem string_append_assoc (a b c : String) : a ++ b ++ c = a ++ (b ++ c) := by
  cases a; cases b; cases c
  exact congrArg String.mk (List.append_assoc _ _ _)

/-- C9: for every TLS flag, host, port and client identity, the channel URLs
are `scheme://host:port/<role-path>/<clientId>` with scheme `ws` when the SSL
flag is unset and `wss` when set, role paths `/v2/control/socket/id` and
`/v2/message/socket/id`, and the client identity as the last path segment. -/
theorem channel_ws_urls (ssl : Bool) (hostStr clientId : String)
    (portNum : Nat) :
    controlWSUrl
        { ELEMENT_ID := clientId, SSL := ssl, host := hostStr,
          port := portNum, wsMessage := none, wsControl := none }
      = (if ssl then "wss" else "ws") ++ "://" ++ hostStr ++ ":"
          ++ toString portNum ++ "/v2/control/socket/id/" ++ clientId ∧
    messageWSUrl
        { ELEMENT_ID := clientId, SSL := ssl, host := hostStr,
          port := portNum, wsMessage := none, wsControl := none }
      = (if ssl then "wss" else "ws") ++ "://" ++ hostStr ++ ":"
          ++ toString portNum ++ "/v2/message/socket/id/" ++ clientId := by
  constructor <;>
    simp [controlWSUrl, messageWSUrl, makeWSUrl, getWSURL, getEndpointURL,
      string_append_assoc]

/-- C10: `getMessagesByQuery` throws `Error('Publishers input is not array!')`
exactly when its `publishers` argument is not an array; the throw is
synchronous and the `Except.error` carries no `HttpCall`, so no HTTP request
is issued and no callback can be invoked; when `publishers` is an array the
single query POST is issued. -/
theorem getMessagesByQuery_array_check (eid : String) (sd ed : Int)
    (publishers : JsVal) :
    (getMessagesByQuery eid sd ed publishers
        = Except.error "Publishers input is not array!" ↔
      isArray publishers = false) ∧
    (∀ pubs, publishers = JsVal.array pubs →
      getMessagesByQuery eid sd ed publishers = Except.ok
        { relativeUrl := "/v2/messages/query",
          body := { id := eid, timeframestart := sd, timeframeend := ed,
                    publishers := pubs } }) := by
  cases publishers <;> simp [getMessagesByQuery, isArray]

/-- C10 witness: an array argument issues the query POST; a non-array argument
throws. -/
theorem getMessagesByQuery_array_check_witness :
    getMessagesByQuery "cid" 1 2 (JsVal.array ["p1"]) = Except.ok
      { relativeUrl := "/v2/messages/query",
        body := { id := "cid", timeframestart := 1, timeframeend := 2,
                  publishers := ["p1"] } } ∧
    getMessagesByQuery "cid" 1 2 JsVal.nonArray
      = Except.error "Publishers input is not array!" := by
  constructor
  · exact (getMessagesByQuery_array_check "cid" 1 2 (JsVal.array ["p1"])).2
      ["p1"] rfl
  · exact (getMessagesByQuery_array_check "cid" 1 2 JsVal.nonArray).1.mpr rfl

end IoFabric
